import Mathlib

/-!
Verification development for the Discord invite-token service
(`src/main.py`, with `src/alt.py` holding an identical token-store core).

The SQLite `tokens` table is embedded as a list of `TokenRecord`s in
insertion order; timestamps are modelled as natural numbers (minutes).
Each definition mirrors one Python function of `src/main.py`; the
corresponding functions of `src/alt.py` (`validate_and_mark`,
`cleanup_expired_tokens`, `invite`, `oauth_callback`) are line-for-line
identical to the `main.py` versions embedded here.
-/

namespace DiscordBot

/-- One row of the `tokens` table (schema in `init_database`, main.py
lines 69-81).  `created_at` and `expires_at` are minutes; `expires_at`
is `none` for SQL NULL.  The extra free-form profile columns of
`alt.py` never influence any claimed behaviour and are omitted. -/
structure TokenRecord where
  token : String
  role_key : String
  email : Option String := none
  name : Option String := none
  created_at : Nat := 0
  expires_at : Option Nat := none
  used : Bool := false
  email_sent : Bool := false
deriving Repr, DecidableEq

/-- The persistent store: the rows of the `tokens` table in rowid
(insertion) order, which is the order an unordered `SELECT` scans. -/
abbrev Store := List TokenRecord

/-- Python truthiness of an optional string: `None` and `""` are falsy.
Used for `request.query.get(...)` / `data.get(...)` results that the
source tests with `if not x` or `all([...])`. -/
def truthyOpt : Option String → Bool
  | none => false
  | some s => !s.isEmpty

/-- `SELECT ... FROM tokens WHERE token = ?` followed by `fetchone()`:
the first row whose `token` column equals `t` (the schema makes `token`
UNIQUE, so at most one row matches). -/
def findToken (s : Store) (t : String) : Option TokenRecord :=
  s.find? (fun r => r.token = t)

/-- `UPDATE tokens SET used = TRUE WHERE token = ?` (main.py lines
297-301): every row whose token matches is marked used. -/
def markUsed (s : Store) (t : String) : Store :=
  s.map (fun r => if r.token = t then { r with used := true } else r)

/-- `validate_and_mark` (main.py lines 264-309, = alt.py lines 299-344)
with an explicit fault flag: `fault = true` models an exception raised
by the storage layer inside the transaction body, in which case the
`except` clause rolls back, logs, and returns `None` (lines 306-309) -
the store is left unchanged.  Otherwise: look up the token; no row or
an already-used row rolls back and returns `None`; an unused row is
marked used, committed, and its `role_key` returned.  The commented-out
expiry check (lines 291-294) is disabled in the source, so `expires_at`
is never consulted. -/
def validateAndMarkEx (fault : Bool) (s : Store) (t : String) :
    Option String × Store :=
  if fault then (none, s)
  else
    match findToken s t with
    | none => (none, s)
    | some r => if r.used then (none, s) else (some r.role_key, markUsed s t)

/-- `validate_and_mark` on a fault-free storage layer. -/
def validateAndMark (s : Store) (t : String) : Option String × Store :=
  validateAndMarkEx false s t

/-- The `WHERE expires_at IS NOT NULL AND expires_at < ?` predicate of
the cleanup sweep, at current time `now`. -/
def isExpired (now : Nat) (r : TokenRecord) : Bool :=
  match r.expires_at with
  | none => false
  | some e => e < now

/-- `cleanup_expired_tokens` (main.py lines 311-319, = alt.py lines
346-354): delete every row with a non-NULL `expires_at` earlier than
`now`, keep all others, `used` not consulted. -/
def cleanupExpiredTokens (now : Nat) (s : Store) : Store :=
  s.filter (fun r => !isExpired now r)

/-- The row INSERTed by `create_token` (main.py lines 256-259): fresh
token, `used = FALSE`, `email_sent = FALSE`,
`expires_at = utcnow() + timedelta(minutes=valid_minutes)`. -/
def freshRecord (tok role_key : String) (email name : Option String)
    (now validMinutes : Nat) : TokenRecord :=
  { token := tok, role_key := role_key, email := email, name := name,
    created_at := now, expires_at := some (now + validMinutes),
    used := false, email_sent := false }

/-- `create_token` (main.py lines 250-262).  The caller never supplies
the token: `uuid.uuid4().hex` is modelled as the explicit argument
`tok`.  The INSERT hits the UNIQUE constraint on `token` when a row
with the same token already exists; the raised `IntegrityError`
propagates to the caller, modelled as `Except.error`, and the store is
unchanged. -/
def createToken (s : Store) (tok role_key : String)
    (email name : Option String) (now validMinutes : Nat) :
    Except Unit Store :=
  if (s.map (fun r => r.token)).contains tok then .error ()
  else .ok (s ++ [freshRecord tok role_key email name now validMinutes])

/-- `UPDATE tokens SET email_sent = ? WHERE token = ?` performed by
`send_welcome_email` (main.py lines 235-241) with the SMTP success
flag. -/
def setEmailSent (s : Store) (t : String) (flag : Bool) : Store :=
  s.map (fun r => if r.token = t then { r with email_sent := flag } else r)

/-! ## HTTP handlers

The aiohttp handlers are embedded as pure functions of the store, the
request data, and the outcomes of the external calls they make. -/

/-- The environment-driven configuration read at module load (main.py
lines 26-54): OAuth credentials, redirect targets, and the cohort →
Discord-role-id map `ROLE_MAP` (whose values come from `os.getenv` and
may be `None`; handler membership tests look only at the keys). -/
structure Config where
  clientId : String
  clientSecret : String
  redirectUri : String
  inviteUrl : String
  roleMap : List (String × Option String)
deriving Repr, DecidableEq

/-- The keys of `ROLE_MAP`, the recognized cohort selectors. -/
def roleKeys (cfg : Config) : List String :=
  cfg.roleMap.map Prod.fst

/-- `ROLE_MAP[role_key]`: `none` models the `KeyError` raised when the
key is absent; `some v` is the stored value (itself an `Option`, since
the env var may be unset). -/
def roleMapGet (cfg : Config) (k : String) : Option (Option String) :=
  (cfg.roleMap.find? (fun p => p.1 = k)).map Prod.snd

/-- External calls the callback handler issues, in the order made. -/
inductive ExtCall where
  | exchangeCode
  | fetchIdentity
  | joinGuild
  | attachRole
deriving Repr, DecidableEq

/-- Outcomes of the external Discord API calls made by one
`oauth_callback` request.  For the two grant-stage `session.put` calls
(guild join, role attach): the aiohttp `ClientSession` is used without
`raise_for_status`, so an HTTP error status does NOT raise - the call
returns normally; `.ok b` is a returned response whose status is
successful iff `b`, and `.error ()` is a transport-level exception
(connection failure), which propagates out of the handler.  For the
code exchange, `.ok a` is a parsed JSON body whose
`.get("access_token")` is `a`; for the identity fetch, `.ok u` is a
body whose `.get("id")` is `u`. -/
structure CallbackWorld where
  exchange : Except Unit (Option String)
  fetchUser : Except Unit (Option String)
  joinGuild : Except Unit Bool
  attachRole : Except Unit Bool
deriving Repr

/-- An HTTP response produced by a handler.  `serverError` is an
exception escaping the handler, which aiohttp turns into a 500.
`redirect` is `web.HTTPFound`; for the OAuth consent redirect the
query parameters handed to `urllib.parse.urlencode` are kept as an
association list. -/
inductive HResp where
  | badRequest (msg : String)
  | serverError
  | redirect (url : String) (params : List (String × String))
deriving Repr, DecidableEq

/-- Result of one `oauth_callback` request: the response, the store
after the request, and the external calls made (in order). -/
structure CallbackResult where
  resp : HResp
  store : Store
  calls : List ExtCall
deriving Repr, DecidableEq

/-- The 400 body of main.py line 434. -/
def invalidLinkMsg : String := "Invalid, expired, or already-used link"

/-- The 400 body of main.py line 450. -/
def exchangeFailedMsg : String := "Token exchange failed"

/-- `validate_and_mark(state)` at main.py line 431: `state` is
`request.query.get("state")`; a missing parameter passes `None`, and
`WHERE token = NULL` matches no row, leaving the store unchanged. -/
def redeemState (fault : Bool) (s : Store) (state : Option String) :
    Option String × Store :=
  match state with
  | none => (none, s)
  | some t => validateAndMarkEx fault s t

/-- `oauth_callback` (main.py lines 427-476, = alt.py lines 496-545).
`validate_and_mark(state)` runs before `code` is inspected; `if not
code or not role_key` rejects with the invalid-link 400.  Then: code
exchange (a falsy `access_token` → the exchange-failed 400), identity
fetch (the missing-id case is NOT checked - `user_id` is only
interpolated into URLs), guild join, `ROLE_MAP[role_key]` lookup
(`KeyError` on an unknown key propagates), role attach, and the final
`HTTPFound(INVITE_URL)`.  The results of the two puts are never
inspected. -/
def oauthCallback (cfg : Config) (s : Store) (code state : Option String)
    (fault : Bool) (w : CallbackWorld) : CallbackResult :=
  let vr := redeemState fault s state
  match vr.1 with
  | none => ⟨.badRequest invalidLinkMsg, vr.2, []⟩
  | some rk =>
    if !truthyOpt code then ⟨.badRequest invalidLinkMsg, vr.2, []⟩
    else
      match w.exchange with
      | .error _ => ⟨.serverError, vr.2, [.exchangeCode]⟩
      | .ok accessToken =>
        if !truthyOpt accessToken then
          ⟨.badRequest exchangeFailedMsg, vr.2, [.exchangeCode]⟩
        else
          match w.fetchUser with
          | .error _ => ⟨.serverError, vr.2, [.exchangeCode, .fetchIdentity]⟩
          | .ok _userId =>
            match w.joinGuild with
            | .error _ =>
              ⟨.serverError, vr.2, [.exchangeCode, .fetchIdentity, .joinGuild]⟩
            | .ok _joinOk =>
              match roleMapGet cfg rk with
              | none =>
                ⟨.serverError, vr.2,
                 [.exchangeCode, .fetchIdentity, .joinGuild]⟩
              | some _roleId =>
                match w.attachRole with
                | .error _ =>
                  ⟨.serverError, vr.2,
                   [.exchangeCode, .fetchIdentity, .joinGuild, .attachRole]⟩
                | .ok _attachOk =>
                  ⟨.redirect cfg.inviteUrl [], vr.2,
                   [.exchangeCode, .fetchIdentity, .joinGuild, .attachRole]⟩

/-- The Discord consent endpoint the invite handler redirects to. -/
def authorizeUrl : String := "https://discord.com/oauth2/authorize"

/-- The query-parameter dict built at main.py lines 416-422 and handed
to `urllib.parse.urlencode`; `state` carries the token. -/
def oauthParams (cfg : Config) (tok : String) : List (String × String) :=
  [("client_id", cfg.clientId), ("redirect_uri", cfg.redirectUri),
   ("response_type", "code"), ("scope", "identify guilds.join"),
   ("state", tok)]

/-- `invite` handler for `GET /invite/{cohort}` (main.py lines 400-425,
= alt.py lines 469-494).  Unknown cohort → 400 before touching the
store.  `request.query.get("token")` is tested with Python truthiness:
a present non-empty token is used as-is (no store write); an absent OR
EMPTY token falls to the legacy branch `create_token(cohort)`, whose
fresh uuid is the argument `freshTok` (an IntegrityError propagating
from the INSERT becomes a 500). -/
def invite (cfg : Config) (s : Store) (cohort : String)
    (queryToken : Option String) (freshTok : String) (now : Nat) :
    HResp × Store :=
  if cohort ∉ roleKeys cfg then (.badRequest "Invalid cohort", s)
  else
    if truthyOpt queryToken then
      match queryToken with
      | some t => (.redirect authorizeUrl (oauthParams cfg t), s)
      | none => (.serverError, s)
    else
      match createToken s freshTok cohort none none now 60 with
      | .error _ => (.serverError, s)
      | .ok s1 => (.redirect authorizeUrl (oauthParams cfg freshTok), s1)

/-- Body of a `POST /bot/invite` request after JSON parsing: the fields
`send_invite_email` reads with `data.get(...)`. -/
structure PostBody where
  name : Option String
  email : Option String
  role : Option String
deriving Repr, DecidableEq

/-- JSON response of `send_invite_email`, tagged by shape. -/
inductive PostResp where
  | errorMissingFields
  | errorInvalidCohort (cohort : String)
  | sent (inviteLink token : String)
  | emailFailed (inviteLink token : String)
  | serverError
deriving Repr, DecidableEq

/-- The invite URL interpolated at main.py lines 227 and 368. -/
def inviteUrlFor (cfg : Config) (cohort tok : String) : String :=
  cfg.redirectUri.replace "/discord/callback" "" ++ "/invite/" ++ cohort
    ++ "?token=" ++ tok

/-- `send_invite_email` handler for `POST /bot/invite` (main.py lines
335-397) composed with `send_welcome_email` (lines 223-247).  Missing
or empty `name`/`email`/`role` → 400; a role outside `ROLE_MAP` → 400;
otherwise `create_token(cohort, email, name)` inserts the fresh-uuid
record (IntegrityError → the generic 500 of lines 392-397), the
welcome email is attempted with SMTP outcome `emailOk`, its result is
written to `email_sent`, and the response is `SENT` (200) or
`EMAIL_FAILED` (500), both carrying the token. -/
def sendInviteEmail (cfg : Config) (s : Store) (body : PostBody)
    (freshTok : String) (now : Nat) (emailOk : Bool) :
    PostResp × Store :=
  if !(truthyOpt body.name && truthyOpt body.email && truthyOpt body.role)
  then (.errorMissingFields, s)
  else
    match body.role with
    | none => (.errorMissingFields, s)
    | some cohort =>
      if cohort ∉ roleKeys cfg then (.errorInvalidCohort cohort, s)
      else
        match createToken s freshTok cohort body.email body.name now 60 with
        | .error _ => (.serverError, s)
        | .ok s1 =>
          let s2 := setEmailSent s1 freshTok emailOk
          let link := inviteUrlFor cfg cohort freshTok
          if emailOk then (.sent link freshTok, s2)
          else (.emailFailed link freshTok, s2)

/-! ## Store-operation alphabet

Every way the running service mutates the `tokens` table, for the
frame/invariant claims. -/

/-- One store mutation: token issuance (`create_token`, with the fresh
uuid as explicit data), redemption (`validate_and_mark`), the
`email_sent` update of `send_welcome_email`, or the cleanup sweep. -/
inductive StoreOp where
  | issue (tok role_key : String) (email name : Option String)
          (now validMinutes : Nat)
  | redeem (t : String)
  | emailStatus (t : String) (flag : Bool)
  | purge (now : Nat)
deriving Repr, DecidableEq

/-- The token an operation would insert, if it is an issuance. -/
def issuedToken : StoreOp → Option String
  | .issue tok _ _ _ _ _ => some tok
  | _ => none

/-- Apply one operation to the store.  A failed `create_token` (UNIQUE
violation) leaves the store unchanged, as the transaction never
commits. -/
def applyOp (s : Store) : StoreOp → Store
  | .issue tok rk e n now vm =>
    match createToken s tok rk e n now vm with
    | .ok s1 => s1
    | .error _ => s
  | .redeem t => (validateAndMark s t).2
  | .emailStatus t f => setEmailSent s t f
  | .purge now => cleanupExpiredTokens now s

/-- Apply a sequence of operations, oldest first. -/
def applyOps (s : Store) (ops : List StoreOp) : Store :=
  ops.foldl applyOp s

/-- All rows holding token `t` are marked used (so `t` cannot be
redeemed, and stays that way under every store operation that does not
re-insert `t`). -/
def Consumed (s : Store) (t : String) : Prop :=
  ∀ r ∈ s, r.token = t → r.used = true

/-- The `token` column is UNIQUE: no two rows share a token value.
Guaranteed by the schema (`token TEXT UNIQUE NOT NULL`). -/
def TokensUnique (s : Store) : Prop :=
  (s.map (fun r => r.token)).Nodup

/-! ## Helper lemmas -/

theorem token_update_used (r : TokenRecord) (b : Bool) :
    ({ r with used := b }).token = r.token := rfl

theorem token_update_email_sent (r : TokenRecord) (b : Bool) :
    ({ r with email_sent := b }).token = r.token := rfl

theorem token_update_expiry (r : TokenRecord) (e : Option Nat) :
    ({ r with expires_at := e }).token = r.token := rfl

theorem validateAndMarkEx_false (s : Store) (t : String) :
    validateAndMarkEx false s t =
      match findToken s t with
      | none => (none, s)
      | some r =>
        if r.used then (none, s) else (some r.role_key, markUsed s t) := rfl

theorem validateAndMarkEx_true (s : Store) (t : String) :
    validateAndMarkEx true s t = (none, s) := rfl

theorem validateAndMark_none (s : Store) (t : String)
    (hf : findToken s t = none) : validateAndMark s t = (none, s) := by
  unfold validateAndMark
  rw [validateAndMarkEx_false, hf]

theorem validateAndMark_some (s : Store) (t : String) (r : TokenRecord)
    (hf : findToken s t = some r) :
    validateAndMark s t =
      if r.used = true then (none, s)
      else (some r.role_key, markUsed s t) := by
  unfold validateAndMark
  rw [validateAndMarkEx_false, hf]

theorem findToken_some_token {s : Store} {t : String} {r : TokenRecord}
    (hf : findToken s t = some r) : r.token = t := by
  unfold findToken at hf
  have h1 := List.find?_some hf
  exact of_decide_eq_true h1

theorem findToken_some_mem {s : Store} {t : String} {r : TokenRecord}
    (hf : findToken s t = some r) : r ∈ s := by
  unfold findToken at hf
  exact List.mem_of_find?_eq_some hf

theorem consumed_markUsed (s : Store) (t : String) :
    Consumed (markUsed s t) t := by
  intro r hr _hrt
  rcases List.mem_map.1 hr with ⟨a, _ha, rfl⟩
  by_cases h : a.token = t
  · rw [if_pos h]
  · rw [if_neg h] at _hrt
    exact absurd _hrt h

theorem consumed_mono_markUsed (s : Store) (T t : String)
    (h : Consumed s T) : Consumed (markUsed s t) T := by
  intro r hr hrt
  rcases List.mem_map.1 hr with ⟨a, ha, rfl⟩
  by_cases hq : a.token = t
  · rw [if_pos hq]
  · rw [if_neg hq] at hrt ⊢
    exact h a ha hrt

theorem consumed_mono_setEmailSent (s : Store) (T t : String) (flag : Bool)
    (h : Consumed s T) : Consumed (setEmailSent s t flag) T := by
  intro r hr hrt
  rcases List.mem_map.1 hr with ⟨a, ha, rfl⟩
  by_cases hq : a.token = t
  · rw [if_pos hq] at hrt ⊢
    exact h a ha hrt
  · rw [if_neg hq] at hrt ⊢
    exact h a ha hrt

theorem consumed_validate_none (f : Bool) (s : Store) (t : String)
    (h : Consumed s t) : (validateAndMarkEx f s t).1 = none := by
  cases f with
  | true => rfl
  | false =>
    show (validateAndMark s t).1 = none
    cases hf : findToken s t with
    | none => rw [validateAndMark_none s t hf]
    | some r =>
      rw [validateAndMark_some s t r hf,
        if_pos (h r (findToken_some_mem hf) (findToken_some_token hf))]

theorem validate_success_shape (s : Store) (t rk : String)
    (h : (validateAndMark s t).1 = some rk) :
    (validateAndMark s t).2 = markUsed s t ∧
    ∃ r, findToken s t = some r ∧ r ∈ s ∧ r.token = t ∧ r.used = false ∧
      r.role_key = rk := by
  cases hf : findToken s t with
  | none =>
    rw [validateAndMark_none s t hf] at h
    exact absurd h (by simp)
  | some r =>
    rw [validateAndMark_some s t r hf] at h
    by_cases hu : r.used = true
    · rw [if_pos hu] at h
      exact absurd h (by simp)
    · rw [if_neg hu] at h
      rw [validateAndMark_some s t r hf, if_neg hu]
      refine ⟨rfl, r, rfl, findToken_some_mem hf, findToken_some_token hf,
        by simpa using hu, by simpa using h⟩

theorem consumed_applyOp (s : Store) (T : String) (op : StoreOp)
    (h : Consumed s T) (hf : issuedToken op ≠ some T) :
    Consumed (applyOp s op) T := by
  cases op with
  | issue tok rk e n now vm =>
    simp only [applyOp, createToken]
    by_cases hc : (s.map (fun r => r.token)).contains tok
    · simp only [hc, if_true]; exact h
    · simp only [hc, if_false]
      intro r hr hrt
      rcases List.mem_append.1 hr with hrs | hrnew
      · exact h r hrs hrt
      · have : r.token = tok := by
          rcases List.mem_singleton.1 hrnew with rfl; rfl
        exfalso
        apply hf
        simp only [issuedToken, Option.some_inj]
        rw [← this, hrt]
  | redeem t =>
    simp only [applyOp]
    cases hft : findToken s t with
    | none => rw [validateAndMark_none s t hft]; exact h
    | some r =>
      rw [validateAndMark_some s t r hft]
      by_cases hu : r.used = true
      · rw [if_pos hu]; exact h
      · rw [if_neg hu]
        exact consumed_mono_markUsed s T t h
  | emailStatus t flag =>
    exact consumed_mono_setEmailSent s T t flag h
  | purge now =>
    intro r hr hrt
    exact h r (List.mem_of_mem_filter hr) hrt

theorem consumed_applyOps (s : Store) (T : String) (ops : List StoreOp)
    (h : Consumed s T) (hf : ∀ op ∈ ops, issuedToken op ≠ some T) :
    Consumed (applyOps s ops) T := by
  induction ops generalizing s with
  | nil => exact h
  | cons op tl ih =>
    exact ih (applyOp s op)
      (consumed_applyOp s T op h (hf op (List.mem_cons_self op tl)))
      (fun o ho => hf o (List.mem_cons_of_mem op ho))

theorem unique_token_eq (s : Store) (hu : TokensUnique s)
    (r1 r2 : TokenRecord) (h1 : r1 ∈ s) (h2 : r2 ∈ s)
    (ht : r1.token = r2.token) : r1 = r2 := by
  induction s with
  | nil => cases h1
  | cons a tl ih =>
    rcases List.nodup_cons.1 hu with ⟨hna, hnd⟩
    rcases List.mem_cons.1 h1 with rfl | h1t
    · rcases List.mem_cons.1 h2 with rfl | h2t
      · rfl
      · have hm : r2.token ∈ tl.map (fun r => r.token) :=
          List.mem_map_of_mem (fun r => r.token) h2t
        rw [← ht] at hm
        exact absurd hm hna
    · rcases List.mem_cons.1 h2 with rfl | h2t
      · have hm : r1.token ∈ tl.map (fun r => r.token) :=
          List.mem_map_of_mem (fun r => r.token) h1t
        rw [ht] at hm
        exact absurd hm hna
      · exact ih hnd h1t h2t

theorem findToken_isSome_of_mem (s : Store) (t : String)
    (h : ∃ r ∈ s, r.token = t) : ∃ r2, findToken s t = some r2 := by
  induction s with
  | nil => rcases h with ⟨r, hr, _⟩; cases hr
  | cons a tl ih =>
    by_cases ha : a.token = t
    · refine ⟨a, ?_⟩
      unfold findToken
      rw [List.find?_cons_of_pos _ (by simp [ha])]
    · rcases h with ⟨r, hr, hrt⟩
      rcases List.mem_cons.1 hr with rfl | hrt2
      · exact absurd hrt ha
      · rcases ih ⟨r, hrt2, hrt⟩ with ⟨r2, hr2⟩
        refine ⟨r2, ?_⟩
        unfold findToken at hr2 ⊢
        rw [List.find?_cons_of_neg _ (by simp [ha])]
        exact hr2

theorem findToken_setExpiry (f : TokenRecord → Option Nat) (s : Store)
    (t : String) :
    findToken (s.map (fun r => { r with expires_at := f r })) t
      = (findToken s t).map (fun r => { r with expires_at := f r }) := by
  induction s with
  | nil => rfl
  | cons a tl ih =>
    unfold findToken at ih ⊢
    rw [List.map_cons]
    by_cases h : a.token = t
    · rw [List.find?_cons_of_pos _ (by simp [token_update_expiry, h]),
        List.find?_cons_of_pos _ (by simp [h])]
      rfl
    · rw [List.find?_cons_of_neg _ (by simp [token_update_expiry, h]),
        List.find?_cons_of_neg _ (by simp [h])]
      exact ih

theorem map_id_of_eq {f : TokenRecord → TokenRecord} (s : Store)
    (h : ∀ r ∈ s, f r = r) : s.map f = s := by
  induction s with
  | nil => rfl
  | cons a tl ih =>
    rw [List.map_cons, h a (List.mem_cons_self a tl),
      ih (fun r hr => h r (List.mem_cons_of_mem a hr))]

theorem setEmailSent_append_fresh (s : Store) (rec : TokenRecord)
    (flag : Bool) (hf : ∀ r ∈ s, r.token ≠ rec.token) :
    setEmailSent (s ++ [rec]) rec.token flag
      = s ++ [{ rec with email_sent := flag }] := by
  unfold setEmailSent
  rw [List.map_append]
  have h1 : s.map (fun r => if r.token = rec.token
      then { r with email_sent := flag } else r) = s :=
    map_id_of_eq s (fun r hr => if_neg (hf r hr))
  rw [h1, List.map_cons, List.map_nil, if_pos rfl]

theorem findToken_append_fresh (s : Store) (rec : TokenRecord)
    (hf : ∀ r ∈ s, r.token ≠ rec.token) :
    findToken (s ++ [rec]) rec.token = some rec := by
  induction s with
  | nil =>
    unfold findToken
    rw [List.nil_append, List.find?_cons_of_pos _ (by simp)]
  | cons a tl ih =>
    unfold findToken at ih ⊢
    rw [List.cons_append,
      List.find?_cons_of_neg _ (by simp [hf a (List.mem_cons_self a tl)])]
    exact ih (fun r hr => hf r (List.mem_cons_of_mem a hr))

theorem contains_eq_false_of_fresh (s : Store) (tok : String)
    (h : ∀ r ∈ s, r.token ≠ tok) :
    ((s.map (fun r => r.token)).contains tok) = false := by
  induction s with
  | nil => rfl
  | cons a tl ih =>
    rw [List.map_cons, List.contains_cons]
    have ha : (tok == a.token) = false :=
      beq_eq_false_iff_ne.mpr (Ne.symm (h a (List.mem_cons_self a tl)))
    rw [ha, Bool.false_or]
    exact ih (fun r hr => h r (List.mem_cons_of_mem a hr))

/-! ## Concrete fixtures used by witnesses and counterexamples -/

/-- A sample configuration with the four `ROLE_MAP` cohorts of main.py
lines 49-54. -/
def cfgEx : Config :=
  { clientId := "cid", clientSecret := "secret",
    redirectUri := "https://example.org/discord/callback",
    inviteUrl := "https://discord.gg/home",
    roleMap := [("lbtcl_cohort", some "101"), ("bpd_cohort", some "102"),
                ("mb_cohort", some "103"), ("pb_cohort", some "104")] }

/-- A sample unused, unexpired token record. -/
def recEx : TokenRecord :=
  { token := "t1", role_key := "pb_cohort", email := some "a@example.org",
    name := some "Ada", created_at := 0, expires_at := some 60,
    used := false, email_sent := false }

/-- A one-row sample store. -/
def storeEx : Store := [recEx]

/-- External-call outcomes in which every Discord API call succeeds. -/
def worldOk : CallbackWorld :=
  { exchange := .ok (some "acc"), fetchUser := .ok (some "u1"),
    joinGuild := .ok true, attachRole := .ok true }

/-- External-call outcomes whose code-exchange response carries no
access token. -/
def worldNoTok : CallbackWorld :=
  { exchange := .ok none, fetchUser := .ok none,
    joinGuild := .ok true, attachRole := .ok true }

/-- External-call outcomes in which the guild-join put raises a
transport exception. -/
def worldJoinRaise : CallbackWorld :=
  { exchange := .ok (some "acc"), fetchUser := .ok (some "u1"),
    joinGuild := .error (), attachRole := .ok true }

/-- External-call outcomes in which both grant-stage puts return HTTP
error responses (which aiohttp does not raise on). -/
def worldGrantHttpFail : CallbackWorld :=
  { exchange := .ok (some "acc"), fetchUser := .ok (some "u1"),
    joinGuild := .ok false, attachRole := .ok false }

/-! ## Claims -/

/-- Claim C1: no resurrection.  Once `validate_and_mark(T)` has
returned a role key, every subsequent `validate_and_mark(T)` on the
resulting store returns `None`, across any sequence of further store
operations (issue with a fresh uuid, redeem, email-status update,
purge); every row holding `T` stays `used = true`, never reset.  The
freshness hypothesis on issued tokens encodes the global uniqueness of
`uuid.uuid4().hex` values that the store design assumes. -/
theorem c1_no_resurrection (s : Store) (T rk : String)
    (h : (validateAndMark s T).1 = some rk)
    (ops : List StoreOp)
    (hfresh : ∀ op ∈ ops, issuedToken op ≠ some T) :
    (validateAndMark (applyOps (validateAndMark s T).2 ops) T).1 = none ∧
    ∀ r ∈ applyOps (validateAndMark s T).2 ops,
      r.token = T → r.used = true := by
  have hcons : Consumed (validateAndMark s T).2 T := by
    rw [(validate_success_shape s T rk h).1]
    exact consumed_markUsed s T
  have hcons2 := consumed_applyOps _ T ops hcons hfresh
  exact ⟨consumed_validate_none false _ T hcons2, hcons2⟩

theorem c1_no_resurrection_witness :
    (validateAndMark
      (applyOps (validateAndMark storeEx "t1").2
        [StoreOp.issue "t2" "mb_cohort" none none 5 60,
         StoreOp.redeem "t1", StoreOp.emailStatus "t1" true,
         StoreOp.purge 1000]) "t1").1 = none :=
  (c1_no_resurrection storeEx "t1" "pb_cohort" (by decide)
    [StoreOp.issue "t2" "mb_cohort" none none 5 60,
     StoreOp.redeem "t1", StoreOp.emailStatus "t1" true,
     StoreOp.purge 1000] (by decide)).1

/-- Claim C2: `validate_and_mark(T)` returns a role key `rk` iff a row
with token `T` exists with `used = false` (and then `rk` is its
`role_key`), and the value of `expires_at` never affects the result:
rewriting every `expires_at` arbitrarily leaves the outcome unchanged
(an expired but unused token still redeems).  Token uniqueness is the
UNIQUE column constraint. -/
theorem c2_redeem_iff_unused_expiry_ignored (s : Store) (T rk : String)
    (hu : TokensUnique s) :
    ((validateAndMark s T).1 = some rk ↔
      ∃ r ∈ s, r.token = T ∧ r.used = false ∧ r.role_key = rk) ∧
    ∀ f : TokenRecord → Option Nat,
      (validateAndMark (s.map (fun r => { r with expires_at := f r })) T).1
        = (validateAndMark s T).1 := by
  constructor
  · constructor
    · intro h
      rcases (validate_success_shape s T rk h).2 with
        ⟨r, _hf, hm, ht, hus, hrk⟩
      exact ⟨r, hm, ht, hus, hrk⟩
    · rintro ⟨r, hm, ht, hus, hrk⟩
      rcases findToken_isSome_of_mem s T ⟨r, hm, ht⟩ with ⟨r2, hf2⟩
      have he : r2 = r := unique_token_eq s hu r2 r (findToken_some_mem hf2)
        hm ((findToken_some_token hf2).trans ht.symm)
      subst he
      rw [validateAndMark_some s T r2 hf2, if_neg (by simp [hus])]
      simp [hrk]
  · intro f
    cases hf : findToken s T with
    | none =>
      have hm : findToken
          (s.map (fun r => { r with expires_at := f r })) T = none := by
        rw [findToken_setExpiry f s T, hf]; rfl
      rw [validateAndMark_none _ T hm, validateAndMark_none s T hf]
    | some r =>
      have hm : findToken (s.map (fun r => { r with expires_at := f r })) T
          = some { r with expires_at := f r } := by
        rw [findToken_setExpiry f s T, hf]; rfl
      rw [validateAndMark_some _ T _ hm, validateAndMark_some s T r hf]
      by_cases hu2 : r.used = true
      · simp [hu2]
      · simp [hu2]

theorem c2_redeem_iff_unused_expiry_ignored_witness :
    ((validateAndMark storeEx "t1").1 = some "pb_cohort" ↔
      ∃ r ∈ storeEx, r.token = "t1" ∧ r.used = false ∧
        r.role_key = "pb_cohort") ∧
    (validateAndMark (storeEx.map (fun r => { r with expires_at := some 0 }))
        "t1").1 = (validateAndMark storeEx "t1").1 := by
  have h := c2_redeem_iff_unused_expiry_ignored storeEx "t1" "pb_cohort"
    (by unfold TokensUnique; decide)
  exact ⟨h.1, h.2 (fun _ => some 0)⟩

/-- Claim C8: purge safety.  `cleanup_expired_tokens` keeps exactly the
rows that are not expired at `now` - a row is expired iff its
`expires_at` is non-NULL and earlier than `now`, the `used` flag
playing no part; a store with no expired row is returned unchanged
(the sweep is a no-op), and running the sweep twice equals running it
once. -/
theorem c8_purge_safety (now : Nat) (s : Store) :
    (∀ r : TokenRecord, isExpired now r = true ↔
      ∃ e, r.expires_at = some e ∧ e < now) ∧
    (∀ r : TokenRecord, r ∈ cleanupExpiredTokens now s ↔
      (r ∈ s ∧ isExpired now r = false)) ∧
    ((∀ r ∈ s, isExpired now r = false) → cleanupExpiredTokens now s = s) ∧
    cleanupExpiredTokens now (cleanupExpiredTokens now s)
      = cleanupExpiredTokens now s := by
  refine ⟨?_, ?_, ?_, ?_⟩
  · intro r
    unfold isExpired
    cases r.expires_at with
    | none => simp
    | some e => simp
  · intro r
    unfold cleanupExpiredTokens
    rw [List.mem_filter]
    simp [Bool.not_eq_true']
  · intro h
    unfold cleanupExpiredTokens
    apply List.filter_eq_self.mpr
    intro a ha
    simp [h a ha]
  · unfold cleanupExpiredTokens
    apply List.filter_eq_self.mpr
    intro a ha
    exact (List.mem_filter.1 ha).2

theorem c8_purge_safety_witness :
    ((∀ r ∈ storeEx, isExpired 5 r = false) →
      cleanupExpiredTokens 5 storeEx = storeEx) ∧
    cleanupExpiredTokens 5 storeEx = storeEx :=
  ⟨(c8_purge_safety 5 storeEx).2.2.1,
   (c8_purge_safety 5 storeEx).2.2.1 (by decide)⟩

theorem redeemState_some (s : Store) (T rk : String)
    (hv : (validateAndMark s T).1 = some rk) :
    redeemState false s (some T) = (some rk, (validateAndMark s T).2) := by
  show validateAndMarkEx false s T = (some rk, (validateAndMark s T).2)
  rw [← hv]
  rfl

/-- Claim C3 counterexample: a storage-layer fault during
`validate_and_mark` is NOT surfaced as a distinct outcome.  On a store
whose token `t1` is valid and unused, a faulting redemption returns
`(none, store)` - bit-for-bit the result an absent token produces -
and the callback answers with the same 400 invalid-link page instead
of a server error. -/
theorem c3_storage_fault_counterexample :
    validateAndMarkEx true storeEx "t1" = (none, storeEx) ∧
    validateAndMarkEx false storeEx "absent" = (none, storeEx) ∧
    (oauthCallback cfgEx storeEx (some "code") (some "t1") true worldOk).resp
      = HResp.badRequest invalidLinkMsg := by
  refine ⟨rfl, by decide, by decide⟩

/-- Claim C3 (amended): the `except` clause of `validate_and_mark`
catches storage-layer faults, rolls back, logs, and returns `None` -
the very same `(none, store)` outcome a NotFound produces - so the
callback reports a faulting redemption with the same 400 invalid-link
response used for absent or already-used tokens, never as a distinct
server error. -/
theorem c3_storage_fault_swallowed (cfg : Config) (s : Store)
    (t : String) (code : Option String) (w : CallbackWorld) :
    validateAndMarkEx true s t = (none, s) ∧
    oauthCallback cfg s code (some t) true w
      = ⟨HResp.badRequest invalidLinkMsg, s, []⟩ := by
  refine ⟨rfl, ?_⟩
  simp [oauthCallback, redeemState, validateAndMarkEx_true]

/-- Claim C4: when `validate_and_mark` succeeds but the code-exchange
response carries no (or an empty) access token, the callback answers
the 400 exchange-failed page, the store keeps the consumed token
(`used = true` committed by the earlier redemption, nothing restores
it), and any later redemption of the same token - across any sequence
of store operations issuing only fresh uuids - returns `None`. -/
theorem c4_exchange_failure_keeps_token_consumed (cfg : Config)
    (s : Store) (T rk : String) (code : Option String) (w : CallbackWorld)
    (hv : (validateAndMark s T).1 = some rk)
    (hcode : truthyOpt code = true)
    (a : Option String) (hex : w.exchange = Except.ok a)
    (ha : truthyOpt a = false) :
    (oauthCallback cfg s code (some T) false w).resp
      = HResp.badRequest exchangeFailedMsg ∧
    (oauthCallback cfg s code (some T) false w).store
      = (validateAndMark s T).2 ∧
    ∀ ops : List StoreOp, (∀ op ∈ ops, issuedToken op ≠ some T) →
      (validateAndMark
        (applyOps (oauthCallback cfg s code (some T) false w).store ops)
        T).1 = none := by
  have hrs := redeemState_some s T rk hv
  have hresp : (oauthCallback cfg s code (some T) false w).resp
      = HResp.badRequest exchangeFailedMsg := by
    simp [oauthCallback, hrs, hcode, hex, ha]
  have hstore : (oauthCallback cfg s code (some T) false w).store
      = (validateAndMark s T).2 := by
    simp [oauthCallback, hrs, hcode, hex, ha]
  refine ⟨hresp, hstore, ?_⟩
  intro ops hops
  rw [hstore]
  have hcons : Consumed (validateAndMark s T).2 T := by
    rw [(validate_success_shape s T rk hv).1]
    exact consumed_markUsed s T
  exact consumed_validate_none false _ T
    (consumed_applyOps _ T ops hcons hops)

theorem c4_exchange_failure_keeps_token_consumed_witness :
    (oauthCallback cfgEx storeEx (some "c") (some "t1") false
      worldNoTok).resp = HResp.badRequest exchangeFailedMsg ∧
    (validateAndMark
      (applyOps
        (oauthCallback cfgEx storeEx (some "c") (some "t1") false
          worldNoTok).store
        [StoreOp.purge 1000]) "t1").1 = none := by
  have h := c4_exchange_failure_keeps_token_consumed cfgEx storeEx "t1"
    "pb_cohort" (some "c") worldNoTok (by decide) (by decide) none rfl
    (by decide)
  exact ⟨h.1, h.2.2 [StoreOp.purge 1000] (by decide)⟩

/-- Claim C10: on a callback whose `state` names an existing unused
token but whose `code` is absent or empty, `validate_and_mark` still
runs first, so the token is consumed even though the request is
rejected with the 400 invalid-link page; no external call is made, and
no later redemption of that token succeeds. -/
theorem c10_missing_code_still_consumes (cfg : Config) (s : Store)
    (T : String) (code : Option String) (w : CallbackWorld)
    (hu : TokensUnique s)
    (hex : ∃ r ∈ s, r.token = T ∧ r.used = false)
    (hcode : truthyOpt code = false) :
    (oauthCallback cfg s code (some T) false w).resp
      = HResp.badRequest invalidLinkMsg ∧
    (oauthCallback cfg s code (some T) false w).calls = [] ∧
    (validateAndMark
      (oauthCallback cfg s code (some T) false w).store T).1 = none := by
  rcases hex with ⟨r, hm, ht, hus⟩
  rcases findToken_isSome_of_mem s T ⟨r, hm, ht⟩ with ⟨r2, hf2⟩
  have he : r2 = r := unique_token_eq s hu r2 r (findToken_some_mem hf2)
    hm ((findToken_some_token hf2).trans ht.symm)
  subst he
  have hv : (validateAndMark s T).1 = some r2.role_key := by
    rw [validateAndMark_some s T r2 hf2, if_neg (by simp [hus])]
  have hrs := redeemState_some s T r2.role_key hv
  have hstore : (oauthCallback cfg s code (some T) false w).store
      = (validateAndMark s T).2 := by
    simp [oauthCallback, hrs, hcode]
  refine ⟨by simp [oauthCallback, hrs, hcode], by simp [oauthCallback, hrs, hcode], ?_⟩
  rw [hstore]
  have hcons : Consumed (validateAndMark s T).2 T := by
    rw [(validate_success_shape s T r2.role_key hv).1]
    exact consumed_markUsed s T
  exact consumed_validate_none false _ T hcons

theorem c10_missing_code_still_consumes_witness :
    (oauthCallback cfgEx storeEx none (some "t1") false worldOk).resp
      = HResp.badRequest invalidLinkMsg ∧
    (validateAndMark
      (oauthCallback cfgEx storeEx none (some "t1") false worldOk).store
      "t1").1 = none := by
  have h := c10_missing_code_still_consumes cfgEx storeEx "t1" none
    worldOk (by unfold TokensUnique; decide)
    ⟨recEx, by decide, by decide, by decide⟩ (by decide)
  exact ⟨h.1, h.2.2⟩

/-- Claim C5 counterexample: both grant-stage calls fail at the HTTP
level (the guild-join and role-attach puts return error responses),
yet the attempt does NOT end in a failure outcome - the handler
proceeds to the COMPLETE redirect to `INVITE_URL`, because the results
of the two puts are never inspected. -/
theorem c5_grant_http_failure_counterexample :
    (oauthCallback cfgEx storeEx (some "c") (some "t1") false
      worldGrantHttpFail).resp = HResp.redirect cfgEx.inviteUrl [] := by
  decide

/-- Claim C5 (amended): in the grant stage the controller performs the
guild-join call and then the role-attach call in sequence; a
transport-level exception in either call aborts the attempt as an
unhandled server error (and an exception in the join prevents the
attach from being made at all), but an HTTP-level error response from
either call is not checked: whenever both calls return responses -
successful or not - the handler proceeds to the COMPLETE redirect. -/
theorem c5_grant_stage_behaviour (cfg : Config) (s : Store)
    (T rk : String) (code : Option String) (w : CallbackWorld)
    (hv : (validateAndMark s T).1 = some rk)
    (hcode : truthyOpt code = true)
    (a : Option String) (hex : w.exchange = Except.ok a)
    (ha : truthyOpt a = true)
    (u : Option String) (hfu : w.fetchUser = Except.ok u)
    (rid : Option String) (hrm : roleMapGet cfg rk = some rid) :
    (w.joinGuild = Except.error () →
      (oauthCallback cfg s code (some T) false w).resp = HResp.serverError ∧
      (oauthCallback cfg s code (some T) false w).calls
        = [ExtCall.exchangeCode, ExtCall.fetchIdentity, ExtCall.joinGuild]) ∧
    (∀ b : Bool, w.joinGuild = Except.ok b → w.attachRole = Except.error () →
      (oauthCallback cfg s code (some T) false w).resp = HResp.serverError ∧
      (oauthCallback cfg s code (some T) false w).calls
        = [ExtCall.exchangeCode, ExtCall.fetchIdentity, ExtCall.joinGuild,
           ExtCall.attachRole]) ∧
    (∀ b1 b2 : Bool, w.joinGuild = Except.ok b1 → w.attachRole = Except.ok b2 →
      (oauthCallback cfg s code (some T) false w).resp
        = HResp.redirect cfg.inviteUrl [] ∧
      (oauthCallback cfg s code (some T) false w).calls
        = [ExtCall.exchangeCode, ExtCall.fetchIdentity, ExtCall.joinGuild,
           ExtCall.attachRole]) := by
  have hrs := redeemState_some s T rk hv
  refine ⟨?_, ?_, ?_⟩
  · intro hj
    constructor <;> simp [oauthCallback, hrs, hcode, hex, ha, hfu, hj]
  · intro b hj hat
    constructor <;> simp [oauthCallback, hrs, hcode, hex, ha, hfu, hj, hrm, hat]
  · intro b1 b2 hj hat
    constructor <;> simp [oauthCallback, hrs, hcode, hex, ha, hfu, hj, hrm, hat]

theorem c5_grant_stage_behaviour_witness :
    (oauthCallback cfgEx storeEx (some "c") (some "t1") false
      worldJoinRaise).resp = HResp.serverError ∧
    (oauthCallback cfgEx storeEx (some "c") (some "t1") false
      worldJoinRaise).calls
      = [ExtCall.exchangeCode, ExtCall.fetchIdentity, ExtCall.joinGuild] := by
  have h := c5_grant_stage_behaviour cfgEx storeEx "t1" "pb_cohort"
    (some "c") worldJoinRaise (by decide) (by decide) (some "acc") rfl
    (by decide) (some "u1") rfl (some "104") (by decide)
  exact h.1 rfl

theorem not_exists_token_of_fresh (s : Store) (tok : String)
    (h : ∀ r ∈ s, r.token ≠ tok) : ¬∃ r ∈ s, r.token = tok := by
  rintro ⟨r, hr, hrt⟩
  exact h r hr hrt

theorem setEmailSent_append_freshRecord (s : Store) (tok rk2 : String)
    (em2 nm2 : Option String) (now vm : Nat) (flag : Bool)
    (hf : ∀ r ∈ s, r.token ≠ tok) :
    setEmailSent (s ++ [freshRecord tok rk2 em2 nm2 now vm]) tok flag
      = s ++ [{ freshRecord tok rk2 em2 nm2 now vm with
                email_sent := flag }] :=
  setEmailSent_append_fresh s _ flag hf

/-- Claim C6 counterexample: the issuance iff fails as stated - a
`POST /bot/invite` whose role selector IS a key of the role map but
whose `name` field is missing is rejected with the 400 missing-fields
error and creates no record, so issuance success is not equivalent to
role-map membership over all requests. -/
theorem c6_missing_fields_counterexample :
    "pb_cohort" ∈ roleKeys cfgEx ∧
    sendInviteEmail cfgEx []
      { name := none, email := some "a@example.org",
        role := some "pb_cohort" } "t9" 0 true
      = (PostResp.errorMissingFields, []) := by
  constructor
  · decide
  · decide

/-- Claim C6 (amended): role-map closure for requests whose other
required fields are present.  For any selector `c` (non-empty, since an
empty selector trips the missing-fields check of the POST handler
first): if `c` is not a key of the role map, both `POST /bot/invite`
and `GET /invite/{c}` answer a 400 client error with the store
untouched; if `c` is a key, the POST creates exactly one new record
for it and the GET succeeds with a redirect to the consent URL. -/
theorem c6_role_map_closure (cfg : Config) (s : Store)
    (nm em c freshTok ft2 : String) (qt : Option String)
    (now : Nat) (emailOk : Bool)
    (hnm : nm ≠ "") (hem : em ≠ "") (hc : c ≠ "")
    (hfr : ∀ r ∈ s, r.token ≠ freshTok)
    (hfr2 : ∀ r ∈ s, r.token ≠ ft2) :
    (c ∉ roleKeys cfg →
      sendInviteEmail cfg s
        { name := some nm, email := some em, role := some c }
        freshTok now emailOk = (PostResp.errorInvalidCohort c, s) ∧
      invite cfg s c qt ft2 now = (HResp.badRequest "Invalid cohort", s)) ∧
    (c ∈ roleKeys cfg →
      (sendInviteEmail cfg s
        { name := some nm, email := some em, role := some c }
        freshTok now emailOk).2
        = s ++ [{ freshRecord freshTok c (some em) (some nm) now 60 with
                  email_sent := emailOk }] ∧
      ∃ ps, (invite cfg s c qt ft2 now).1
        = HResp.redirect authorizeUrl ps) := by
  constructor
  · intro hmem
    constructor
    · simp [sendInviteEmail, truthyOpt, hnm, hem, hc, hmem,
        String.isEmpty_iff]
    · simp [invite, hmem]
  · intro hmem
    have hcontains := contains_eq_false_of_fresh s freshTok hfr
    have hni := not_exists_token_of_fresh s freshTok hfr
    have hset := setEmailSent_append_freshRecord s freshTok c (some em)
      (some nm) now 60 emailOk hfr
    constructor
    · cases emailOk <;>
        simp [sendInviteEmail, truthyOpt, hnm, hem, hc, hmem,
          String.isEmpty_iff, createToken, hcontains, hni, hset]
    · cases qt with
      | none =>
        have hcontains2 := contains_eq_false_of_fresh s ft2 hfr2
        have hni2 := not_exists_token_of_fresh s ft2 hfr2
        exact ⟨oauthParams cfg ft2,
          by simp [invite, hmem, truthyOpt, createToken, hcontains2, hni2]⟩
      | some t =>
        by_cases ht : t = ""
        · subst ht
          have hcontains2 := contains_eq_false_of_fresh s ft2 hfr2
          have hni2 := not_exists_token_of_fresh s ft2 hfr2
          have hie : "".isEmpty = true := rfl
          exact ⟨oauthParams cfg ft2,
            by simp [invite, hmem, truthyOpt, createToken, hcontains2,
              hni2, hie]⟩
        · have hie : t.isEmpty = false := by
            cases hx : t.isEmpty with
            | false => rfl
            | true => exact absurd ((String.isEmpty_iff t).mp hx) ht
          exact ⟨oauthParams cfg t,
            by simp [invite, hmem, truthyOpt, hie]⟩

theorem c6_role_map_closure_witness :
    sendInviteEmail cfgEx []
      { name := some "Ada", email := some "a@example.org",
        role := some "unknown_cohort" } "t5" 0 true
      = (PostResp.errorInvalidCohort "unknown_cohort", []) ∧
    (sendInviteEmail cfgEx []
      { name := some "Ada", email := some "a@example.org",
        role := some "pb_cohort" } "t5" 0 true).2
      = [{ freshRecord "t5" "pb_cohort" (some "a@example.org")
           (some "Ada") 0 60 with email_sent := true }] := by
  have h1 := c6_role_map_closure cfgEx [] "Ada" "a@example.org"
    "unknown_cohort" "t5" "t6" none 0 true (by decide) (by decide)
    (by decide) (by decide) (by decide)
  have h2 := c6_role_map_closure cfgEx [] "Ada" "a@example.org"
    "pb_cohort" "t5" "t6" none 0 true (by decide) (by decide)
    (by decide) (by decide) (by decide)
  exact ⟨(h1.1 (by decide)).1, by simpa using (h2.2 (by decide)).1⟩

/-- Claim C7: dispatch independence.  A valid `POST /bot/invite`
creates the token record with `used = false` whether the welcome email
succeeds or fails; the record stays redeemable (`validate_and_mark`
returns its cohort) either way; the only difference an email failure
makes is the `EMAIL_FAILED` response (still carrying the token) and
the `email_sent` flag of the record - every other field and every other
record is untouched, as the resulting store is exactly the old store
plus the one fresh record. -/
theorem c7_dispatch_independence (cfg : Config) (s : Store)
    (nm em c freshTok : String) (now : Nat) (emailOk : Bool)
    (hnm : nm ≠ "") (hem : em ≠ "") (hc : c ≠ "")
    (hmem : c ∈ roleKeys cfg)
    (hfr : ∀ r ∈ s, r.token ≠ freshTok) :
    (sendInviteEmail cfg s
      { name := some nm, email := some em, role := some c }
      freshTok now emailOk).2
      = s ++ [{ freshRecord freshTok c (some em) (some nm) now 60 with
                email_sent := emailOk }] ∧
    (validateAndMark
      (sendInviteEmail cfg s
        { name := some nm, email := some em, role := some c }
        freshTok now emailOk).2 freshTok).1 = some c ∧
    (sendInviteEmail cfg s
      { name := some nm, email := some em, role := some c }
      freshTok now emailOk).1
      = (if emailOk then PostResp.sent (inviteUrlFor cfg c freshTok) freshTok
         else PostResp.emailFailed (inviteUrlFor cfg c freshTok) freshTok) := by
  have hcontains := contains_eq_false_of_fresh s freshTok hfr
  have hni := not_exists_token_of_fresh s freshTok hfr
  have hset := setEmailSent_append_freshRecord s freshTok c (some em)
    (some nm) now 60 emailOk hfr
  have h2 : (sendInviteEmail cfg s
      { name := some nm, email := some em, role := some c }
      freshTok now emailOk).2
      = s ++ [{ freshRecord freshTok c (some em) (some nm) now 60 with
                email_sent := emailOk }] := by
    cases emailOk <;>
      simp [sendInviteEmail, truthyOpt, hnm, hem, hc, hmem,
        String.isEmpty_iff, createToken, hcontains, hni, hset]
  have hfind : findToken
      (s ++ [{ freshRecord freshTok c (some em) (some nm) now 60 with
               email_sent := emailOk }]) freshTok
      = some { freshRecord freshTok c (some em) (some nm) now 60 with
               email_sent := emailOk } :=
    findToken_append_fresh s _ hfr
  refine ⟨h2, ?_, ?_⟩
  · rw [h2, validateAndMark_some _ freshTok _ hfind,
      if_neg (by simp [freshRecord])]
    simp [freshRecord]
  · cases emailOk <;>
      simp [sendInviteEmail, truthyOpt, hnm, hem, hc, hmem,
        String.isEmpty_iff, createToken, hcontains, hni, hset]

theorem c7_dispatch_independence_witness :
    (sendInviteEmail cfgEx storeEx
      { name := some "Bo", email := some "b@example.org",
        role := some "mb_cohort" } "t3" 7 false).2
      = storeEx ++ [{ freshRecord "t3" "mb_cohort" (some "b@example.org")
                      (some "Bo") 7 60 with email_sent := false }] ∧
    (validateAndMark
      (sendInviteEmail cfgEx storeEx
        { name := some "Bo", email := some "b@example.org",
          role := some "mb_cohort" } "t3" 7 false).2 "t3").1
      = some "mb_cohort" := by
  have h := c7_dispatch_independence cfgEx storeEx "Bo" "b@example.org"
    "mb_cohort" "t3" 7 false (by decide) (by decide) (by decide)
    (by decide) (by decide)
  exact ⟨h.1, h.2.1⟩

/-- Claim C9 counterexample: a `GET /invite/{cohort}` request that DOES
carry a token query parameter - with the empty-string value, as in
`?token=` - still creates a new token record, because the handler
tests the parameter with Python truthiness, contradicting the claim
that any request carrying the parameter leaves the store unchanged. -/
theorem c9_empty_token_creates_record_counterexample :
    (invite cfgEx [] "pb_cohort" (some "") "t7" 0).2
      = [freshRecord "t7" "pb_cohort" none none 0 60] := by
  decide

/-- Claim C9 (amended): for a recognized selector, a request carrying a
NON-EMPTY token parameter creates no record - the store is returned
unchanged - and the supplied token value is embedded verbatim as the
`state` parameter of the consent redirect; a new record is created
exactly when the token parameter is absent or empty (Python
truthiness). -/
theorem c9_token_passthrough (cfg : Config) (s : Store)
    (c t2 ft : String) (now : Nat)
    (hmem : c ∈ roleKeys cfg) (ht2 : t2 ≠ "")
    (hfr : ∀ r ∈ s, r.token ≠ ft) :
    invite cfg s c (some t2) ft now
      = (HResp.redirect authorizeUrl (oauthParams cfg t2), s) ∧
    (oauthParams cfg t2).lookup "state" = some t2 ∧
    (invite cfg s c none ft now).2
      = s ++ [freshRecord ft c none none now 60] ∧
    (invite cfg s c (some "") ft now).2
      = s ++ [freshRecord ft c none none now 60] := by
  have hcontains := contains_eq_false_of_fresh s ft hfr
  have hni := not_exists_token_of_fresh s ft hfr
  have hie2 : t2.isEmpty = false := by
    cases hx : t2.isEmpty with
    | false => rfl
    | true => exact absurd ((String.isEmpty_iff t2).mp hx) ht2
  have hie0 : "".isEmpty = true := rfl
  refine ⟨?_, ?_, ?_, ?_⟩
  · simp [invite, hmem, truthyOpt, hie2]
  · rfl
  · simp [invite, hmem, truthyOpt, createToken, hcontains, hni]
  · simp [invite, hmem, truthyOpt, createToken, hcontains, hni, hie0]

theorem c9_token_passthrough_witness :
    invite cfgEx storeEx "mb_cohort" (some "tok123") "t8" 3
      = (HResp.redirect authorizeUrl (oauthParams cfgEx "tok123"),
         storeEx) ∧
    (invite cfgEx storeEx "mb_cohort" none "t8" 3).2
      = storeEx ++ [freshRecord "t8" "mb_cohort" none none 3 60] := by
  have h := c9_token_passthrough cfgEx storeEx "mb_cohort" "tok123" "t8" 3
    (by decide) (by decide) (by decide)
  exact ⟨h.1, h.2.2.1⟩

end DiscordBot
